import Mathlib

/-
Shallow embedding of the `interpact` circuit-breaker skeleton
(src/src/lib.rs, src/src/errors.rs) together with a spec-modelled
generation/report layer for the parts the skeleton leaves out
(the `generation` field is commented out in the source and there is
no `report` path).

Modelling conventions:
- Rust `u32` counters are `Nat` with an explicit `% 2 ^ 32` where the
  source increments them.
- `std::time::Instant` is a `Nat` tick count on a monotonic clock and
  `std::time::Duration` a `Nat`; `Instant::duration_since` is truncated
  (saturating) subtraction, and comparison with `Duration::from_secs(0)`
  is comparison with `0`.
- A panic (`unimplemented!()` in `CircuitBreaker::succeeded`) is
  modelled by `Option`: `none` means the call panics and never returns.
- The caller-supplied operation `fn() -> Result<T, E>` is modelled by
  the result it produces when invoked; the embedding additionally
  returns `task_invocations`, the number of times the operation ran.
- The `on_state_change` observer is a bare function pointer in the
  source whose only observable effect is being invoked, so observer
  invocations are reified as the list of `StateChangeEvent`s an
  operation emits instead of keeping the pointer as a field.
-/

namespace Interpact

/-- Breaker states, embedding `enum State` of src/src/lib.rs. -/
inductive State where
  | Closed
  | Open
  | HalfOpen
deriving DecidableEq, Repr

/-- Outcome tally, embedding `struct Counts` of src/src/lib.rs (all fields `u32`). -/
structure Counts where
  requests : Nat
  total_successes : Nat
  total_failures : Nat
  consecutive_successes : Nat
  consecutive_failures : Nat
deriving DecidableEq, Repr

/-- Embeds `Counts::new`: all five fields zero. -/
def Counts.new : Counts :=
  { requests := 0
    total_successes := 0
    total_failures := 0
    consecutive_failures := 0
    consecutive_successes := 0 }

/-- Embeds `Counts::requested`: `self.requests += 1` on a `u32`. -/
def Counts.requested (c : Counts) : Counts :=
  { c with requests := (c.requests + 1) % 2 ^ 32 }

/-- Embeds `Counts::failed`: bump the failure totals, zero the success streak. -/
def Counts.failed (c : Counts) : Counts :=
  { c with
    total_failures := (c.total_failures + 1) % 2 ^ 32
    consecutive_failures := (c.consecutive_failures + 1) % 2 ^ 32
    consecutive_successes := 0 }

/-- Embeds `Counts::succeeded`: bump the success totals, zero the failure streak. -/
def Counts.succeeded (c : Counts) : Counts :=
  { c with
    total_successes := (c.total_successes + 1) % 2 ^ 32
    consecutive_successes := (c.consecutive_successes + 1) % 2 ^ 32
    consecutive_failures := 0 }

/-- Embeds `Counts::clear`: zero all five fields. -/
def Counts.clear (_ : Counts) : Counts :=
  { requests := 0
    total_failures := 0
    total_successes := 0
    consecutive_failures := 0
    consecutive_successes := 0 }

/-- Embeds `default_ready_to_trip`: `counts.consecutive_failures > 5`. -/
def default_ready_to_trip (counts : Counts) : Bool :=
  counts.consecutive_failures > 5

/-- Embeds `enum CircuitBreakerErrorKind` of src/src/errors.rs. -/
inductive CircuitBreakerErrorKind where
  | StateOpenError
  | TooManyRequestsError
deriving DecidableEq, Repr

/-- Embeds `struct CircuitBreakerError` of src/src/errors.rs. -/
structure CircuitBreakerError where
  kind : CircuitBreakerErrorKind
  message : String
deriving DecidableEq, Repr

/-- One invocation of the `on_state_change` observer: its three arguments. -/
structure StateChangeEvent where
  name : String
  from_state : State
  to_state : State
deriving DecidableEq, Repr

/-- Embeds `struct Options` of src/src/lib.rs. `success_threshold` is
`Option<u32>` in the source; the observer pointer is dropped per the
conventions above (its invocations are reified as events). -/
structure Options where
  name : String
  max_requests : Nat
  success_threshold : Option Nat
  interval : Nat
  timeout : Nat
  ready_to_trip : Counts → Bool

/-- Embeds `struct CircuitBreaker` of src/src/lib.rs. The `state` field's
mutex wraps a `State`; the mutex itself has no pure content. The source's
`generation: u64` field is commented out, so there is none here. -/
structure CircuitBreaker where
  name : String
  max_requests : Nat
  success_threshold : Nat
  interval : Nat
  timeout : Nat
  ready_to_trip : Counts → Bool
  state : State
  counts : Counts
  expires : Option Nat

/-- Embeds `CircuitBreaker::new`. Note the source's normalization
`let mr = if o.max_requests == 0 { o.max_requests } else { 1 }` keeps a
zero and collapses every positive value to one; it is embedded verbatim. -/
def CircuitBreaker.new (o : Options) : CircuitBreaker :=
  let mr : Nat := if o.max_requests = 0 then o.max_requests else 1
  { name := o.name
    max_requests := mr
    success_threshold := o.success_threshold.getD mr
    interval := o.interval
    timeout := if o.timeout > 0 then o.timeout else 60
    ready_to_trip := o.ready_to_trip
    state := State.Closed
    counts := Counts.new
    expires := none }

/-- Embeds `CircuitBreaker::prepare_state` at instant `now`. The source's
Open branch computes `self.expires.unwrap_or(Instant::now()).duration_since(Instant::now())`
and moves to HalfOpen when that duration exceeds zero, i.e. exactly when
the stored expiry is still in the future. -/
def CircuitBreaker.prepare_state (cb : CircuitBreaker) (now : Nat) : CircuitBreaker :=
  match cb.state with
  | State.Closed => cb
  | State.HalfOpen => cb
  | State.Open =>
      if (cb.expires.getD now) - now > 0 then
        { cb with state := State.HalfOpen }
      else
        cb

/-- Embeds `CircuitBreaker::set_state`. The source body locks the state,
binds `old_state = *state`, and then does nothing: it never writes
`new_state`, never begins a generation and never calls `on_state_change`. -/
def CircuitBreaker.set_state (cb : CircuitBreaker) (_ : State) :
    CircuitBreaker × List StateChangeEvent :=
  (cb, [])

/-- Embeds `CircuitBreaker::succeeded`, whose body is `unimplemented!()`:
every call panics, so the embedding returns `none`. -/
def CircuitBreaker.succeeded (_ : CircuitBreaker) :
    Option (CircuitBreaker × List StateChangeEvent) :=
  none

/-- Embeds `CircuitBreaker::failed`: return immediately while Closed or
Open, call `set_state(Open)` while HalfOpen. It never touches `counts`. -/
def CircuitBreaker.failed (cb : CircuitBreaker) :
    CircuitBreaker × List StateChangeEvent :=
  match cb.state with
  | State.Closed => (cb, [])
  | State.Open => (cb, [])
  | State.HalfOpen => cb.set_state State.Open

/-- Result of one `execute` call that returns (does not panic): the
breaker afterwards, the observer events emitted, how many times the
wrapped operation ran, and the value `execute` returned
(`Result<Result<T, E>, CircuitBreakerError>`). -/
structure ExecResult (T E : Type) where
  cb : CircuitBreaker
  events : List StateChangeEvent
  task_invocations : Nat
  result : Except CircuitBreakerError (Except E T)

/-- Embeds the tail of `CircuitBreaker::execute` after the admission
check has passed: `self.counts.requested()`, run the task, then
`self.succeeded()` (which panics: `none`) or `self.failed()`. -/
def CircuitBreaker.run_task {T E : Type} (cb : CircuitBreaker) (task : Except E T) :
    Option (ExecResult T E) :=
  let cb1 : CircuitBreaker := { cb with counts := cb.counts.requested }
  match task with
  | Except.ok _ => none
  | Except.error err =>
      let p := cb1.failed
      some { cb := p.1, events := p.2, task_invocations := 1,
             result := Except.ok (Except.error err) }

/-- Embeds `CircuitBreaker::execute`: `prepare_state`, then the admission
match (Closed admits; HalfOpen rejects with `TooManyRequestsError` when
`counts.requests > max_requests`, strictly; Open rejects with
`StateOpenError`), then the admitted tail. -/
def CircuitBreaker.execute {T E : Type} (cb0 : CircuitBreaker) (now : Nat)
    (task : Except E T) : Option (ExecResult T E) :=
  let cb := cb0.prepare_state now
  match cb.state with
  | State.Closed => cb.run_task task
  | State.HalfOpen =>
      if cb.counts.requests > cb.max_requests then
        some { cb := cb, events := [], task_invocations := 0,
               result := Except.error
                 { kind := CircuitBreakerErrorKind.TooManyRequestsError
                   message := "Maximum requests limit has reached while the CircuitBreaker is HalfOpen" } }
      else
        cb.run_task task
  | State.Open =>
      some { cb := cb, events := [], task_invocations := 0,
             result := Except.error
               { kind := CircuitBreakerErrorKind.StateOpenError
                 message := "The CircuitBreaker is open" } }

/-- Projects the rejection kind out of an `execute` return value:
`some kind` when the breaker rejected the call, `none` when the call was
admitted and its own result came back wrapped in `Ok`. -/
def rejection {T E : Type} : Except CircuitBreakerError (Except E T) →
    Option CircuitBreakerErrorKind
  | Except.error e => some e.kind
  | Except.ok _ => none

/-- Default-flavoured options: the spec's defaults (`max_requests = 1`,
no explicit `success_threshold`, `interval = 0`, `timeout = 60`,
`default_ready_to_trip`). -/
def default_options : Options :=
  { name := "cb"
    max_requests := 1
    success_threshold := none
    interval := 0
    timeout := 60
    ready_to_trip := default_ready_to_trip }

/-- A freshly constructed breaker with the default options. -/
def cb_default : CircuitBreaker :=
  CircuitBreaker.new default_options

/-- A concrete failing operation result (`Result<u32, u32>` flavour). -/
def natFailTask : Except Nat Nat := Except.error 0

/-- One failing call against the breaker: run `execute` with a failing
task and keep the resulting breaker (a failing call never panics, but the
`none` arm keeps this total). -/
def fail_step (cb : CircuitBreaker) : CircuitBreaker :=
  match cb.execute 0 natFailTask with
  | some r => r.cb
  | none => cb

/-- `n` consecutive failing calls against the breaker. -/
def fail_iter : Nat → CircuitBreaker → CircuitBreaker
  | 0, cb => cb
  | n + 1, cb => fail_iter n (fail_step cb)

/-- A breaker observed in the HalfOpen state with `requests = reqs` in the
current counts and cap `mr`; the other fields are the defaults. -/
def halfOpenBreaker (reqs mr : Nat) : CircuitBreaker :=
  { cb_default with
    state := State.HalfOpen
    max_requests := mr
    counts := { Counts.new with requests := reqs } }

/-- A breaker observed in the Open state with the given stored expiry. -/
def openBreaker (e : Option Nat) : CircuitBreaker :=
  { cb_default with state := State.Open, expires := e }

/-- Modelled from the spec: §3 Generation — `{id: integer, expiry: optional
timestamp}`. The source's `generation: u64` field is commented out and no
generation logic exists in src/. -/
structure Generation where
  id : Nat
  expiry : Option Nat
deriving DecidableEq, Repr

/-- Modelled from the spec: §3/§4.3 — the breaker as the spec describes it,
owning the mutable triple `(state, generation, counts)` next to the
configuration. Missing from src/: the source has no generation field and no
report path. -/
structure SpecBreaker where
  name : String
  max_requests : Nat
  success_threshold : Nat
  interval : Nat
  timeout : Nat
  ready_to_trip : Counts → Bool
  state : State
  generation : Generation
  counts : Counts

/-- Modelled from the spec: §4.2 `begin_new_generation(now, for_state)` —
increment the generation id, clear Counts, compute the new expiry per the
table in §3 (Closed: `now + interval` when `interval > 0`, else none;
Open: `now + timeout`; HalfOpen: none). Missing from src/. -/
def SpecBreaker.begin_new_generation (b : SpecBreaker) (now : Nat) (for_state : State) :
    SpecBreaker :=
  { b with
    generation :=
      { id := b.generation.id + 1
        expiry :=
          match for_state with
          | State.Closed => if b.interval > 0 then some (now + b.interval) else none
          | State.Open => some (now + b.timeout)
          | State.HalfOpen => none }
    counts := Counts.new }

/-- Modelled from the spec: §4.3 step 5 — a transition only occurs when the
computed new state differs from the current one; in that case set the state,
begin a new generation for it, and invoke the observer exactly once with
`(name, old_state, new_state)`. Missing from src/ (the skeleton's
`set_state` is an empty stub). -/
def SpecBreaker.transition_to (b : SpecBreaker) (now : Nat) (new_state : State) :
    SpecBreaker × List StateChangeEvent :=
  if b.state = new_state then
    (b, [])
  else
    let b1 : SpecBreaker := { b with state := new_state }
    (b1.begin_new_generation now new_state,
     [{ name := b.name, from_state := b.state, to_state := new_state }])

/-- Outcome of an admitted call, as reported back to the state machine. -/
inductive Outcome where
  | success
  | failure
deriving DecidableEq, Repr

/-- Modelled from the spec: §4.3 `report(generation_id, outcome, now)` —
discard silently when the tagged generation id is not the current one;
otherwise record the outcome into Counts and apply the outcome-driven
transitions (HalfOpen→Closed on reaching the success threshold;
Closed→Open when `ready_to_trip` fires; HalfOpen→Open on any failure).
Missing from src/: no report path exists and `succeeded` is unimplemented. -/
def SpecBreaker.report (b : SpecBreaker) (generation_id : Nat) (outcome : Outcome)
    (now : Nat) : SpecBreaker × List StateChangeEvent :=
  if generation_id = b.generation.id then
    match outcome with
    | Outcome.success =>
        let b1 : SpecBreaker := { b with counts := b.counts.succeeded }
        if b1.state = State.HalfOpen ∧ b1.counts.consecutive_successes ≥ b1.success_threshold then
          b1.transition_to now State.Closed
        else
          (b1, [])
    | Outcome.failure =>
        let b1 : SpecBreaker := { b with counts := b.counts.failed }
        match b1.state with
        | State.Closed =>
            if b1.ready_to_trip b1.counts then b1.transition_to now State.Open else (b1, [])
        | State.HalfOpen => b1.transition_to now State.Open
        | State.Open => (b1, [])
  else
    (b, [])

/-- A concrete spec-level breaker sitting in HalfOpen under generation 5. -/
def specBreaker0 : SpecBreaker :=
  { name := "cb"
    max_requests := 1
    success_threshold := 1
    interval := 0
    timeout := 60
    ready_to_trip := default_ready_to_trip
    state := State.HalfOpen
    generation := { id := 5, expiry := none }
    counts := { Counts.new with requests := 1 } }

/-- The four mutating operations `Counts` exposes in the source. -/
inductive CountsOp where
  | requested
  | succeeded
  | failed
  | clear
deriving DecidableEq, Repr

/-- Apply one `Counts` operation. -/
def applyOp (c : Counts) : CountsOp → Counts
  | CountsOp.requested => c.requested
  | CountsOp.succeeded => c.succeeded
  | CountsOp.failed => c.failed
  | CountsOp.clear => c.clear

/-- Apply a sequence of `Counts` operations, oldest first. -/
def applyOps (c : Counts) (ops : List CountsOp) : Counts :=
  ops.foldl applyOp c

/-- At most one of the two consecutive counters is non-zero. -/
def consecExclusive (c : Counts) : Prop :=
  c.consecutive_successes = 0 ∨ c.consecutive_failures = 0

/-- Each `Counts` operation preserves `consecExclusive`. -/
theorem applyOp_consecExclusive (c : Counts) (op : CountsOp)
    (h : consecExclusive c) : consecExclusive (applyOp c op) := by
  cases op with
  | requested =>
      rcases h with h | h
      · exact Or.inl h
      · exact Or.inr h
  | succeeded => exact Or.inr rfl
  | failed => exact Or.inl rfl
  | clear => exact Or.inl rfl

/-- Folding any operation sequence preserves `consecExclusive`. -/
theorem applyOps_consecExclusive (ops : List CountsOp) (c : Counts)
    (h : consecExclusive c) : consecExclusive (applyOps c ops) := by
  induction ops generalizing c with
  | nil => exact h
  | cons op ops ih => exact ih (applyOp c op) (applyOp_consecExclusive c op h)

/-- Claim C1: an outcome report tagged with a generation id that differs from
the breaker's current generation id is discarded: the breaker (its Counts,
state and generation included) is returned unchanged and no observer event is
emitted. Proved over the spec-modelled `report` (the source has no generation
mechanism). -/
theorem stale_report_discarded (b : SpecBreaker) (gid : Nat) (o : Outcome) (now : Nat)
    (h : gid ≠ b.generation.id) : b.report gid o now = (b, []) := by
  unfold SpecBreaker.report
  simp [h]

/-- Witness for C1: generation id 3 is stale for `specBreaker0` (current id 5)
and the report is discarded whole. -/
theorem stale_report_discarded_witness :
    (3 : Nat) ≠ specBreaker0.generation.id ∧
      specBreaker0.report 3 Outcome.failure 0 = (specBreaker0, []) :=
  ⟨by decide, stale_report_discarded specBreaker0 3 Outcome.failure 0 (by decide)⟩

/-- Claim C2 (code-bug evidence): in the source, after 6 consecutive failing
calls the breaker is still Closed, and the 7th call is admitted — the
operation runs once and its own error is returned wrapped in `Ok`, not a
`StateOpenError` rejection. Moreover `failed` on a HalfOpen breaker leaves
everything unchanged (its `set_state(Open)` is a stub), so neither the
Closed→Open nor the HalfOpen→Open transition the claim describes ever
happens. -/
theorem source_admits_seventh_call :
    (fail_iter 6 cb_default).state = State.Closed ∧
      ((fail_iter 6 cb_default).execute 0 natFailTask).map
          (fun r => (r.task_invocations, rejection r.result, r.cb.state)) =
        some (1, none, State.Closed) ∧
      (halfOpenBreaker 0 1).failed = (halfOpenBreaker 0 1, []) :=
  ⟨rfl, rfl, rfl⟩

/-- Claim C3 (code-bug evidence): the source's `prepare_state` check is
inverted. With the expiry already passed (expiry 10, now 50) the breaker
stays Open and `execute` rejects with `StateOpenError` without running the
operation; with the expiry still in the future (expiry 100, now 50) it moves
to HalfOpen. -/
theorem source_prepare_state_inverts_expiry :
    ((openBreaker (some 10)).prepare_state 50).state = State.Open ∧
      ((openBreaker (some 100)).prepare_state 50).state = State.HalfOpen ∧
      ((openBreaker (some 10)).execute 50 natFailTask).map
          (fun r => (r.task_invocations, rejection r.result)) =
        some (0, some CircuitBreakerErrorKind.StateOpenError) :=
  ⟨rfl, rfl, rfl⟩

/-- Claim C4 (code-bug evidence): the source's HalfOpen admission check is
`counts.requests > max_requests`, not `>=`. With `max_requests = 1` and
`requests = 1` the call is still admitted (the operation runs), contradicting
the claim; only at `requests = 2` is it rejected with
`TooManyRequestsError`. -/
theorem source_halfopen_cap_off_by_one :
    ((halfOpenBreaker 1 1).execute 0 natFailTask).map
        (fun r => (r.task_invocations, rejection r.result)) = some (1, none) ∧
      ((halfOpenBreaker 2 1).execute 0 natFailTask).map
          (fun r => (r.task_invocations, rejection r.result)) =
        some (0, some CircuitBreakerErrorKind.TooManyRequestsError) :=
  ⟨rfl, rfl⟩

/-- Claim C5 (code-bug evidence): the rejection half of the claim holds in
the source (an Open breaker rejects with `StateOpenError` and the operation
never runs, and an admitted failing operation gets its own error back wrapped
in `Ok`), but an admitted operation that succeeds makes `execute` panic in
the unimplemented `succeeded` — it never returns `Ok(Ok(42))`. -/
theorem source_panics_on_admitted_success :
    cb_default.execute 0 (Except.ok 42 : Except Nat Nat) = none ∧
      ((openBreaker (some 10)).execute 50 (Except.ok 42 : Except Nat Nat)).map
          (fun r => (r.task_invocations, rejection r.result)) =
        some (0, some CircuitBreakerErrorKind.StateOpenError) ∧
      (cb_default.execute 0 natFailTask).map
          (fun r => (r.task_invocations, rejection r.result)) = some (1, none) :=
  ⟨rfl, rfl, rfl⟩

/-- Claim C6 (code-bug evidence): a HalfOpen breaker with success threshold 1
that records a successful probe should transition to Closed with cleared
Counts, but in the source the call panics (`succeeded` is `unimplemented!()`)
and `execute` never returns. -/
theorem source_halfopen_success_panics :
    cb_default.success_threshold = 1 ∧
      (halfOpenBreaker 0 1).execute 0 (Except.ok 1 : Except Nat Nat) = none :=
  ⟨rfl, rfl⟩

/-- Claim C7 (code-bug evidence): the source's `set_state` never changes the
state and never invokes the observer, for every breaker and every requested
new state — in particular for `set_state(Open)` on a Closed breaker, where
the claim requires exactly one observer invocation. -/
theorem source_set_state_never_notifies :
    (∀ (cb : CircuitBreaker) (s : State), cb.set_state s = (cb, [])) ∧
      cb_default.state = State.Closed ∧
      (cb_default.set_state State.Open).1.state = State.Closed ∧
      (cb_default.set_state State.Open).2 = [] :=
  ⟨fun _ _ => rfl, rfl, rfl, rfl⟩

/-- Claim C8 (code-bug evidence): after a single admitted failing call has
completed (no call outstanding), the source leaves `requests = 1` but both
totals at 0 — `CircuitBreaker::failed` never records into Counts — so
`requests = total_successes + total_failures` fails. `Counts::clear` itself
(dead code in the source) does zero all five fields. -/
theorem source_counts_invariant_fails :
    ((cb_default.execute 0 natFailTask).map
        (fun r => (r.task_invocations, r.cb.counts.requests,
                   r.cb.counts.total_successes, r.cb.counts.total_failures))) =
      some (1, 1, 0, 0) ∧
      Counts.clear { requests := 7, total_successes := 3, total_failures := 4,
                     consecutive_successes := 0, consecutive_failures := 2 } = Counts.new :=
  ⟨rfl, rfl⟩

/-- Claim C9 (code-bug evidence): the source's normalization in `new` is
inverted — a supplied `max_requests` of 0 is kept as 0 (the cap the claim
says can never be 0), and a supplied 5 is collapsed to 1 instead of being
used as-is. -/
theorem source_new_inverts_max_requests :
    (CircuitBreaker.new { default_options with max_requests := 0 }).max_requests = 0 ∧
      (CircuitBreaker.new { default_options with max_requests := 5 }).max_requests = 1 :=
  ⟨rfl, rfl⟩

/-- Claim C10: starting from `Counts.new`, after any sequence of
requested/succeeded/failed/clear operations at most one of
`consecutive_successes` and `consecutive_failures` is non-zero; recording a
success zeroes `consecutive_failures` and recording a failure zeroes
`consecutive_successes`. -/
theorem counts_consecutive_exclusive :
    (∀ ops : List CountsOp, consecExclusive (applyOps Counts.new ops)) ∧
      (∀ c : Counts, (Counts.succeeded c).consecutive_failures = 0 ∧
        (Counts.failed c).consecutive_successes = 0) :=
  ⟨fun ops => applyOps_consecExclusive ops Counts.new (Or.inl rfl),
   fun _ => ⟨rfl, rfl⟩⟩

end Interpact
